import Mathlib

/-!
Verification of the dimensional query engine of the `unfccc_di_api` package
(file `unfccc_di_api/unfccc_di_api.py`), shallowly embedded in Lean.

Conventions of the embedding:
* Python strings are Lean `String` values; slicing and prefix tests are
  performed on `String.data`, the list of code points, which matches the
  code-point semantics of Python `str`.
* Python integers (all dimension and record ids) are `Nat`.
* Python dicts built at `__init__` time (`_parties_dict`, `_years_dict`,
  `_classifications_dict`, `_gases_dict`, `_units_dict`) are association
  lists `List (Nat × String)` in id order; a `KeyError` on lookup is the
  `none` case of `dictGet`.
* The `treelib` category and measure trees are only ever read through
  `tree[id].tag` with `NodeIDAbsentError` on a missing id, so they are
  embedded as id-to-tag association lists as well.
* pandas DataFrames of records are lists of structures in row order;
  boolean-mask selection is `List.filter`, `Series.unique` is order
  preserving first-occurrence deduplication, `DataFrame.sort_values` is a
  stable sort, `DataFrame.drop_duplicates` keeps first occurrences.
* Exceptions are `Option`/`Except` results.
-/

/-- Embeds `GAS_MAPPING` (module level constant): the mapping from gas names
as plain ASCII strings to the subscript format used by the UNFCCC DI API,
as an association list in source order. -/
def GAS_MAPPING : List (String × String) :=
  [("CH4", "CH₄"),
   ("CO2", "CO₂"),
   ("N2O", "N₂O"),
   ("NF3", "NF₃"),
   ("SF6", "SF₆"),
   ("CF4", "CF₄"),
   ("C2F6", "C₂F₆"),
   ("c-C3F6", "c-C₃F₆"),
   ("C3F8", "C₃F₈"),
   ("c-C4F8", "c-C₄F₈"),
   ("C4F10", "C₄F₁₀"),
   ("C5F12", "C5F₁₂"),
   ("C6F14", "C₆F₁₄"),
   ("C10F18", "C₁₀F₁₈"),
   ("NH3", "NH₃"),
   ("NOx", "NOₓ"),
   ("SO2", "SO₂")]

/-- Embeds `NORMALSCRIPT = "0123456789x"` as its list of code points. -/
def NORMALSCRIPT : List Char := "0123456789x".data

/-- Embeds `SUBSCRIPT = "₀₁₂₃₄₅₆₇₈₉ₓ"` as its list of code points. -/
def SUBSCRIPT : List Char := "₀₁₂₃₄₅₆₇₈₉ₓ".data

/-- Embeds `MAKE_ASCII = str.maketrans(SUBSCRIPT, NORMALSCRIPT)`: the
character translation table pairing each subscript character with the
ASCII character at the same position. -/
def MAKE_ASCII : List (Char × Char) := SUBSCRIPT.zip NORMALSCRIPT

/-- One step of `str.translate(MAKE_ASCII)`: a character found in the
table is replaced, any other character is left unchanged. -/
def translateChar (c : Char) : Char :=
  match MAKE_ASCII.find? (fun p => p.1 == c) with
  | some p => p.2
  | none => c

/-- Embeds `s.translate(MAKE_ASCII)`: the per-character translation of a
whole string. -/
def strTranslate (s : String) : String := String.mk (s.data.map translateChar)

/-- Embeds `GAS_MAPPING.get(g, g)` (used at the start of
`UNFCCCSingleCategoryApiReader.query`): mapped gas names are replaced by
their subscript form, unmapped names pass through unchanged. -/
def gasMapGet (g : String) : String :=
  match GAS_MAPPING.find? (fun p => p.1 == g) with
  | some p => p.2
  | none => g

/-- Embeds a row of the `variables` DataFrame (one element of
`variables_raw`): one full dimension tuple keyed by a non-unique
`variableId`. -/
structure VariableRecord where
  variableId : Nat
  categoryId : Nat
  classificationId : Nat
  measureId : Nat
  gasId : Nat
  unitId : Nat
deriving DecidableEq

/-- Embeds one raw data point returned by the flexible-query endpoint. -/
structure RawPoint where
  variableId : Nat
  partyId : Nat
  yearId : Nat
  numberValue : Option Int
  stringValue : Option String
deriving DecidableEq

/-- Embeds one row of the assembled output DataFrame of
`UNFCCCSingleCategoryApiReader._parse_raw_answer`. -/
structure Row where
  party : String
  category : String
  classification : String
  measure : String
  gas : String
  unit : String
  year : String
  numberValue : Option Int
  stringValue : Option String
deriving DecidableEq

/-- An id-to-label mapping (a Python dict with integer keys, in key
order). -/
abbrev Dict := List (Nat × String)

/-- Dict lookup: `some` label when present, `none` embeds a raised
`KeyError` (or `NodeIDAbsentError` for the taxonomy trees). -/
def dictGet : Dict → Nat → Option String
  | [], _ => none
  | (k, s) :: rest, i => if k = i then some s else dictGet rest i

/-- Embeds the year label normalization loop in
`UNFCCCSingleCategoryApiReader.__init__`:
`if name.startswith("Last Inventory Year"): name = name[-5:-1]`.
The Python slice `[-5:-1]` keeps the 4 code points starting 5 before the
end (the marker guarantees the label has at least 19 characters). -/
def normalizeYearLabel (s : String) : String :=
  if "Last Inventory Year".data.isPrefixOf s.data then
    String.mk ((s.data.drop (s.data.length - 5)).take 4)
  else s

/-- The year label normalization loop of `__init__` applied to the whole
`_years_dict`: every entry label is passed through `normalizeYearLabel`,
ids unchanged. -/
def normalizeYears (years : Dict) : Dict :=
  years.map (fun p => (p.1, normalizeYearLabel p.2))

/-- The per-category state built by
`UNFCCCSingleCategoryApiReader.__init__` that the query pipeline reads:
the grouped variable records and the label dictionaries.  The category
and measure trees appear through their id-to-tag lookup only. -/
structure Reader where
  variablesTable : List VariableRecord
  partiesDict : Dict
  classificationsDict : Dict
  gasesDict : Dict
  unitsDict : Dict
  yearsDict : Dict
  categoryTree : Dict
  measureTree : Dict

/-- Order preserving first-occurrence deduplication with an accumulator of
already seen elements; `dedupKeepFirst` embeds both
`pandas.Series.unique` (used on the `variableId` column in
`_select_variable_ids`) and `DataFrame.drop_duplicates` (used in
`_parse_raw_answer`), which both keep the first occurrence. -/
def dedupKeepFirstAux {α : Type} [DecidableEq α] (seen : List α) : List α → List α
  | [] => []
  | a :: l =>
    if a ∈ seen then dedupKeepFirstAux seen l
    else a :: dedupKeepFirstAux (a :: seen) l

/-- First-occurrence deduplication of a list. -/
def dedupKeepFirst {α : Type} [DecidableEq α] (l : List α) : List α :=
  dedupKeepFirstAux [] l

/-- Embeds one of the four dimension masks of
`UNFCCCSingleCategoryApiReader._select_variable_ids`: for `None` the mask
is all `True`; otherwise the mask starts all `False` and is set `True`
where the column equals any of the given ids. -/
def dimensionMask (ids : Option (List Nat)) (value : Nat) : Bool :=
  match ids with
  | none => true
  | some l => l.any (fun i => value == i)

/-- Embeds `UNFCCCSingleCategoryApiReader._select_variable_ids`: the
conjunction of the four dimension masks selects rows of `variables`, and
the distinct `variableId` values of the selected rows are returned in
first-occurrence order (`Series.unique`). -/
def selectVariableIds (vars : List VariableRecord)
    (classificationIds categoryIds measureIds gasIds : Option (List Nat)) : List Nat :=
  dedupKeepFirst
    ((vars.filter (fun v =>
      dimensionMask classificationIds v.classificationId &&
      dimensionMask categoryIds v.categoryId &&
      dimensionMask measureIds v.measureId &&
      dimensionMask gasIds v.gasId)).map (fun v => v.variableId))

/-- Spec-side reading of one dimension filter, following the claim text: a
record matches a supplied filter iff its value for that dimension appears
anywhere in the supplied id list, and an absent (`none`) filter matches
every record. -/
def FilterMatches : Option (List Nat) → Nat → Prop
  | none, _ => True
  | some l, v => v ∈ l

/-- The three possible outcomes of reader dispatch in
`UNFCCCApiReader.query`. -/
inductive FacadeDispatch where
  | annexOne
  | nonAnnexOne
  | unknownParty
deriving DecidableEq

/-- Embeds the reader selection of `UNFCCCApiReader.query`: membership of
the party code in the annex-one party code column is tested first, then
membership in the non-annex-one party code column, else the query fails
with an unknown-party error. -/
def facadeSelectReader (annexOneCodes nonAnnexOneCodes : List String)
    (partyCode : String) : FacadeDispatch :=
  if annexOneCodes.contains partyCode then FacadeDispatch.annexOne
  else if nonAnnexOneCodes.contains partyCode then FacadeDispatch.nonAnnexOne
  else FacadeDispatch.unknownParty

/-- Embeds `UNFCCCSingleCategoryApiReader._id_in`:
`seq is None or vid in seq`. -/
def id_in (vid : Nat) : Option (List Nat) → Bool
  | none => true
  | some seq => seq.contains vid

/-- One step of the `_variables_dict` construction loop in `__init__`:
append the record to the existing group with its variableId, or start a
new group at the end. -/
def addVariable (d : List (Nat × List VariableRecord)) (v : VariableRecord) :
    List (Nat × List VariableRecord) :=
  match d with
  | [] => [(v.variableId, [v])]
  | (k, g) :: rest =>
    if k = v.variableId then (k, g ++ [v]) :: rest
    else (k, g) :: addVariable rest v

/-- Embeds the `_variables_dict` built in `__init__`: all raw variable
records grouped by `variableId`, groups in first-encounter order and
records inside a group in encounter order, so that the one-to-many
relation from variableId to dimension tuples is preserved. -/
def buildVariablesDict (vars : List VariableRecord) :
    List (Nat × List VariableRecord) :=
  vars.foldl addVariable []

/-- Lookup in the grouped structure; `none` embeds a raised `KeyError`. -/
def lookupGroup : List (Nat × List VariableRecord) → Nat → Option (List VariableRecord)
  | [], _ => none
  | (k, g) :: rest, vid => if k = vid then some g else lookupGroup rest vid

/-- Sequencing of fallible per-element computations, embedding a Python
loop whose body may raise: the first raised exception aborts the whole
computation. -/
def optionMapM {α β : Type} (f : α → Option β) : List α → Option (List β)
  | [] => some []
  | a :: l =>
    match f a, optionMapM f l with
    | some b, some bs => some (b :: bs)
    | _, _ => none

/-- Embeds the row construction inside the inner loop of
`_parse_raw_answer` for one raw point and one variable record that passed
the re-filters: category and measure labels fall back to a placeholder
when the taxonomy tree misses the id (`NodeIDAbsentError` is caught), all
other label lookups raise `KeyError` (`none`) when the id is missing. -/
def assembleRow (r : Reader) (dp : RawPoint) (v : VariableRecord) : Option Row :=
  let category :=
    match dictGet r.categoryTree v.categoryId with
    | some tag => tag
    | none => "unknown category nr. " ++ toString v.categoryId
  let measure :=
    match dictGet r.measureTree v.measureId with
    | some tag => tag
    | none => "unknown measure nr. " ++ toString v.measureId
  match dictGet r.partiesDict dp.partyId,
        dictGet r.classificationsDict v.classificationId,
        dictGet r.gasesDict v.gasId,
        dictGet r.unitsDict v.unitId,
        dictGet r.yearsDict dp.yearId with
  | some party, some classification, some gas, some unit, some year =>
    some ⟨party, category, classification, measure, gas, unit, year,
      dp.numberValue, dp.stringValue⟩
  | _, _, _, _, _ => none

/-- Embeds one iteration of the outer loop of `_parse_raw_answer`: look up
the variableId of the raw point in the grouped variables dict (`KeyError`
if absent), skip the records failing any of the four `_id_in` re-filters,
and build one row per passing record. -/
def emitRowsPoint (r : Reader)
    (classificationIds categoryIds measureIds gasIds : Option (List Nat))
    (dp : RawPoint) : Option (List Row) :=
  match lookupGroup (buildVariablesDict r.variablesTable) dp.variableId with
  | none => none
  | some group =>
    optionMapM (assembleRow r dp)
      (group.filter (fun v =>
        id_in v.classificationId classificationIds &&
        id_in v.categoryId categoryIds &&
        id_in v.measureId measureIds &&
        id_in v.gasId gasIds))

/-- The row emission phase of `_parse_raw_answer` (the `data` list, before
the DataFrame construction): concatenation over all raw points in order. -/
def emitRows (r : Reader)
    (classificationIds categoryIds measureIds gasIds : Option (List Nat)) :
    List RawPoint → Option (List Row)
  | [] => some []
  | dp :: rest =>
    match emitRowsPoint r classificationIds categoryIds measureIds gasIds dp,
          emitRows r classificationIds categoryIds measureIds gasIds rest with
    | some l, some ls => some (l ++ ls)
    | _, _ => none

/-- The (raw point, passing variable record) pairs of a raw answer: for
each raw point in order, the table records sharing its variableId (in
table order) that pass all four dimension re-filters. -/
def passingPairs (r : Reader)
    (classificationIds categoryIds measureIds gasIds : Option (List Nat))
    (raw : List RawPoint) : List (RawPoint × VariableRecord) :=
  raw.flatMap (fun dp =>
    ((r.variablesTable.filter (fun v => v.variableId == dp.variableId)).filter
      (fun v =>
        id_in v.classificationId classificationIds &&
        id_in v.categoryId categoryIds &&
        id_in v.measureId measureIds &&
        id_in v.gasId gasIds)).map (fun v => (dp, v)))

/-- The seven-column sort key used by `sort_values` in
`_parse_raw_answer`. -/
def rowKey (x : Row) : List String :=
  [x.party, x.category, x.classification, x.measure, x.gas, x.unit, x.year]

/-- The sort relation of `_parse_raw_answer`: lexicographic comparison of
the seven-column key (pandas compares string columns by code point, the
order of `LinearOrder String`; the list order is lexicographic). -/
def rowLe (a b : Row) : Prop := rowKey a ≤ rowKey b

instance : DecidableRel rowLe := fun a b => by
  unfold rowLe
  infer_instance

instance : IsTotal Row rowLe :=
  ⟨fun a b => le_total (rowKey a) (rowKey b)⟩

instance : IsTrans Row rowLe :=
  ⟨fun _ _ _ hab hbc => le_trans hab hbc⟩

/-- Embeds `df.sort_values([the seven key columns])`: a sort by the
seven-column key (pandas leaves tie order unspecified; the embedding uses
a stable insertion sort). -/
def sortRows (l : List Row) : List Row := List.insertionSort rowLe l

/-- Embeds `_parse_raw_answer` end to end: emit the rows, build the
DataFrame, sort by the seven-column key, drop exact duplicate rows.  When
the emitted row list is empty the Python code raises `KeyError` from
`sort_values`, because the empty DataFrame has no columns; so the empty
case is a failure (`none`), not an empty table. -/
def parseRawAnswer (r : Reader)
    (classificationIds categoryIds measureIds gasIds : Option (List Nat))
    (raw : List RawPoint) : Option (List Row) :=
  match emitRows r classificationIds categoryIds measureIds gasIds raw with
  | none => none
  | some rows =>
    if rows = [] then none
    else some (dedupKeepFirst (sortRows rows))

/-- Embeds `UNFCCCSingleCategoryApiReader._name_id`: the index of the
first table row whose relevant column equals the given name; `none`
embeds the raised `KeyError` when no row matches. -/
def nameId : Dict → String → Option Nat
  | [], _ => none
  | (k, s) :: rest, name => if s = name then some k else nameId rest name

/-- The classification and gas name resolution steps of `query`: a `None`
filter stays `None`; otherwise each name is resolved through `_name_id`
and the first unknown name raises (`none`). -/
def resolveNames (table : Dict) : Option (List String) → Option (Option (List Nat))
  | none => some none
  | some names =>
    match optionMapM (nameId table) names with
    | none => none
    | some ids => some (some ids)

/-- Fuel-indexed splitting into consecutive chunks of at most `bs`
elements, the fuel being the list length at entry.  Embeds the
`while i < len(variable_ids)` batching loop of `query`
(`variable_ids[i : i + batch_size]`, `i += batch_size`) for positive
`bs`; for `bs = 0` the Python loop would not terminate. -/
def chunkListAux {α : Type} (bs : Nat) : Nat → List α → List (List α)
  | 0, _ => []
  | _, [] => []
  | fuel + 1, a :: l => ((a :: l).take bs) :: chunkListAux bs fuel ((a :: l).drop bs)

/-- The batches `variable_ids[i : i + batch_size]` in order. -/
def chunkList {α : Type} (bs : Nat) (l : List α) : List (List α) :=
  chunkListAux bs l.length l

/-- The batching phase of `query` together with `_flexible_query`: split
the selected variable ids into consecutive chunks of at most `batchSize`,
submit one remote request per chunk through the external `submit`
primitive, and concatenate the raw responses in order
(`raw_response += batched_response`). -/
def rawResponse (remote : List Nat → List Nat → List Nat → List RawPoint)
    (batchSize : Nat) (variableIds partyIds yearIds : List Nat) : List RawPoint :=
  (chunkList batchSize variableIds).flatMap (fun chunk => remote chunk partyIds yearIds)

/-- The error outcomes of `UNFCCCSingleCategoryApiReader.query`:
`unknownParty` is the `ValueError` for an unresolvable party code,
`unknownName` the `KeyError` from `_name_id` for an unresolvable
classification or gas name, `noData` the `NoDataError` carrying the
filter parameters (gases in mapped subscript form, as reassigned at the
start of `query`), and `keyError` any unhandled `KeyError` raised while
assembling the answer. -/
inductive QueryError where
  | unknownParty
  | unknownName
  | noData (partyCodes : List String) (categoryIds : Option (List Nat))
      (classifications : Option (List String)) (measureIds : Option (List Nat))
      (gases : Option (List String))
  | keyError
deriving DecidableEq

instance : DecidableEq (Except QueryError (List Row)) := fun a b =>
  match a, b with
  | Except.ok x, Except.ok y =>
    if h : x = y then isTrue (by rw [h]) else isFalse (by intro hc; cases hc; exact h rfl)
  | Except.error x, Except.error y =>
    if h : x = y then isTrue (by rw [h]) else isFalse (by intro hc; cases hc; exact h rfl)
  | Except.ok _, Except.error _ => isFalse (by intro hc; cases hc)
  | Except.error _, Except.ok _ => isFalse (by intro hc; cases hc)

/-- Embeds the gas name normalization at the end of `query`
(`df[c].apply(lambda x: x.translate(MAKE_ASCII))` for the unit and gas
columns). -/
def normalizeRowGasUnit (row : Row) : Row :=
  { row with unit := strTranslate row.unit, gas := strTranslate row.gas }

/-- Embeds `UNFCCCSingleCategoryApiReader.query` on an already
constructed reader state: map gas aliases to subscript form, resolve
party codes (ValueError on an unknown code), resolve classification and
gas names (KeyError on an unknown name), always use all year ids, select
the variable ids, execute the batched remote query, raise `NoDataError`
(with the filter parameters) exactly when the concatenated raw response
is empty, otherwise assemble the answer and optionally normalize gas and
unit names.  The `remote` argument is the external `submit` primitive
used by `_flexible_query`, a pure function of the request payload. -/
def query (r : Reader) (remote : List Nat → List Nat → List Nat → List RawPoint)
    (partyCodes : List String) (categoryIds : Option (List Nat))
    (classifications : Option (List String)) (measureIds : Option (List Nat))
    (gases : Option (List String)) (batchSize : Nat)
    (normalizeGasNames : Bool) : Except QueryError (List Row) :=
  match optionMapM (nameId r.partiesDict) partyCodes with
  | none => Except.error QueryError.unknownParty
  | some partyIds =>
    match resolveNames r.classificationsDict classifications with
    | none => Except.error QueryError.unknownName
    | some classificationIds =>
      match resolveNames r.gasesDict (gases.map (fun gs => gs.map gasMapGet)) with
      | none => Except.error QueryError.unknownName
      | some gasIds =>
        if rawResponse remote batchSize
            (selectVariableIds r.variablesTable classificationIds categoryIds
              measureIds gasIds)
            partyIds (r.yearsDict.map (fun p => p.1)) = [] then
          Except.error (QueryError.noData partyCodes categoryIds classifications
            measureIds (gases.map (fun gs => gs.map gasMapGet)))
        else
          match parseRawAnswer r classificationIds categoryIds measureIds gasIds
              (rawResponse remote batchSize
                (selectVariableIds r.variablesTable classificationIds categoryIds
                  measureIds gasIds)
                partyIds (r.yearsDict.map (fun p => p.1))) with
          | none => Except.error QueryError.keyError
          | some rows =>
            Except.ok (if normalizeGasNames then rows.map normalizeRowGasUnit else rows)

/-- Concrete variables table for witnesses: variableId 1 carries two
dimension tuples (one with a categoryId missing from the category tree),
variableId 2 carries one. -/
def sampleVariables : List VariableRecord :=
  [⟨1, 10, 20, 30, 40, 50⟩, ⟨1, 11, 21, 30, 40, 50⟩, ⟨2, 10, 20, 31, 41, 50⟩]

/-- Concrete reader state for witnesses. -/
def sampleReader : Reader where
  variablesTable := sampleVariables
  partiesDict := [(7, "DEU")]
  classificationsDict := [(20, "Total for category"), (21, "Other")]
  gasesDict := [(40, "N₂O"), (41, "CH₄")]
  unitsDict := [(50, "kt")]
  yearsDict := [(100, "1990")]
  categoryTree := [(10, "1.A")]
  measureTree := [(30, "Net emissions"), (31, "Emissions")]

/-- A remote fixture that ignores the requested ids and answers with one
raw point for variableId 2 (whose only dimension tuple fails a
classification re-filter during assembly). -/
def sampleRemoteExtra : List Nat → List Nat → List Nat → List RawPoint :=
  fun _ _ _ => [⟨2, 7, 100, some 3, none⟩]

/-- A remote fixture that always answers with no data points. -/
def sampleRemoteEmpty : List Nat → List Nat → List Nat → List RawPoint :=
  fun _ _ _ => []

/-- A remote fixture whose answer depends on the chunk length, not only
on which ids are requested: it is a pure deterministic function of its
payload but not pointwise in the ids. -/
def sampleRemoteLengthTwo : List Nat → List Nat → List Nat → List RawPoint :=
  fun chunk _ _ => if chunk.length = 2 then [⟨1, 7, 100, none, none⟩] else []

/-- A pointwise remote fixture: one raw point per requested variable id. -/
def samplePointResponse : Nat → List RawPoint :=
  fun vid => [⟨vid, 7, 100, none, none⟩]

section DedupLemmas

variable {α : Type} [DecidableEq α]

theorem mem_dedupKeepFirstAux (x : α) :
    ∀ (l seen : List α), x ∈ dedupKeepFirstAux seen l ↔ x ∈ l ∧ x ∉ seen := by
  intro l
  induction l with
  | nil => intro seen; simp [dedupKeepFirstAux]
  | cons a t ih =>
    intro seen
    by_cases ha : a ∈ seen
    · rw [dedupKeepFirstAux, if_pos ha, ih]
      constructor
      · rintro ⟨hxt, hxs⟩
        exact ⟨List.mem_cons_of_mem a hxt, hxs⟩
      · rintro ⟨hxat, hxs⟩
        rcases List.mem_cons.mp hxat with rfl | hxt
        · exact absurd ha hxs
        · exact ⟨hxt, hxs⟩
    · rw [dedupKeepFirstAux, if_neg ha]
      constructor
      · intro hx
        rcases List.mem_cons.mp hx with rfl | hx
        · exact ⟨List.mem_cons_self x t, ha⟩
        · rw [ih] at hx
          refine ⟨List.mem_cons_of_mem a hx.1, fun hxs => hx.2 (List.mem_cons_of_mem a hxs)⟩
      · rintro ⟨hxat, hxs⟩
        rcases List.mem_cons.mp hxat with rfl | hxt
        · exact List.mem_cons_self x _
        · by_cases hxa : x = a
          · subst hxa; exact List.mem_cons_self x _
          · refine List.mem_cons_of_mem a ?_
            rw [ih]
            exact ⟨hxt, fun hmem => by
              rcases List.mem_cons.mp hmem with h | h
              · exact hxa h
              · exact hxs h⟩

theorem mem_dedupKeepFirst (x : α) (l : List α) :
    x ∈ dedupKeepFirst l ↔ x ∈ l := by
  rw [dedupKeepFirst, mem_dedupKeepFirstAux]
  simp

theorem nodup_dedupKeepFirstAux :
    ∀ (l seen : List α), (dedupKeepFirstAux seen l).Nodup := by
  intro l
  induction l with
  | nil => intro seen; simp [dedupKeepFirstAux]
  | cons a t ih =>
    intro seen
    by_cases ha : a ∈ seen
    · rw [dedupKeepFirstAux, if_pos ha]; exact ih seen
    · rw [dedupKeepFirstAux, if_neg ha]
      refine List.nodup_cons.mpr ⟨?_, ih (a :: seen)⟩
      intro hmem
      rw [mem_dedupKeepFirstAux] at hmem
      exact hmem.2 (List.mem_cons_self a seen)

theorem nodup_dedupKeepFirst (l : List α) : (dedupKeepFirst l).Nodup :=
  nodup_dedupKeepFirstAux l []

theorem sublist_dedupKeepFirstAux :
    ∀ (l seen : List α), (dedupKeepFirstAux seen l).Sublist l := by
  intro l
  induction l with
  | nil => intro seen; simp [dedupKeepFirstAux]
  | cons a t ih =>
    intro seen
    by_cases ha : a ∈ seen
    · rw [dedupKeepFirstAux, if_pos ha]
      exact (ih seen).trans (List.sublist_cons_self a t)
    · rw [dedupKeepFirstAux, if_neg ha]
      exact List.Sublist.cons₂ a (ih (a :: seen))

theorem sublist_dedupKeepFirst (l : List α) : (dedupKeepFirst l).Sublist l :=
  sublist_dedupKeepFirstAux l []

end DedupLemmas

theorem dimensionMask_eq_filterMatches (ids : Option (List Nat)) (v : Nat) :
    dimensionMask ids v = true ↔ FilterMatches ids v := by
  cases ids with
  | none => simp [dimensionMask, FilterMatches]
  | some l =>
    simp only [dimensionMask, FilterMatches, List.any_eq_true, beq_iff_eq]
    constructor
    · rintro ⟨i, hi, rfl⟩; exact hi
    · intro hv; exact ⟨v, hv, rfl⟩

/-- C1: for every variables table and every combination of the four
optional dimension filters, `selectVariableIds` returns a duplicate-free
list containing exactly the variableIds of the records that match all
four filters: soundness (every returned id has a matching record) and
completeness (every matching record contributes its id). -/
theorem select_variable_ids_sound_complete
    (vars : List VariableRecord)
    (classificationIds categoryIds measureIds gasIds : Option (List Nat)) :
    (selectVariableIds vars classificationIds categoryIds measureIds gasIds).Nodup ∧
    ∀ x, x ∈ selectVariableIds vars classificationIds categoryIds measureIds gasIds ↔
      ∃ v, v ∈ vars ∧
        FilterMatches classificationIds v.classificationId ∧
        FilterMatches categoryIds v.categoryId ∧
        FilterMatches measureIds v.measureId ∧
        FilterMatches gasIds v.gasId ∧
        v.variableId = x := by
  constructor
  · exact nodup_dedupKeepFirst _
  · intro x
    rw [selectVariableIds, mem_dedupKeepFirst, List.mem_map]
    constructor
    · rintro ⟨v, hv, rfl⟩
      rw [List.mem_filter] at hv
      obtain ⟨hmem, hmask⟩ := hv
      simp only [Bool.and_eq_true] at hmask
      obtain ⟨⟨⟨h1, h2⟩, h3⟩, h4⟩ := hmask
      exact ⟨v, hmem, (dimensionMask_eq_filterMatches _ _).mp h1,
        (dimensionMask_eq_filterMatches _ _).mp h2,
        (dimensionMask_eq_filterMatches _ _).mp h3,
        (dimensionMask_eq_filterMatches _ _).mp h4, rfl⟩
    · rintro ⟨v, hmem, h1, h2, h3, h4, rfl⟩
      refine ⟨v, ?_, rfl⟩
      rw [List.mem_filter]
      refine ⟨hmem, ?_⟩
      simp only [Bool.and_eq_true]
      exact ⟨⟨⟨(dimensionMask_eq_filterMatches _ _).mpr h1,
        (dimensionMask_eq_filterMatches _ _).mpr h2⟩,
        (dimensionMask_eq_filterMatches _ _).mpr h3⟩,
        (dimensionMask_eq_filterMatches _ _).mpr h4⟩

/-- C4: with all four dimension filters left unset (`none`), selection
returns exactly the full set of distinct variableIds present in the
variables table (identity law). -/
theorem select_all_filters_none_identity (vars : List VariableRecord) :
    (selectVariableIds vars none none none none).Nodup ∧
    ∀ x, x ∈ selectVariableIds vars none none none none ↔
      ∃ v, v ∈ vars ∧ v.variableId = x := by
  constructor
  · exact nodup_dedupKeepFirst _
  · intro x
    rw [selectVariableIds, mem_dedupKeepFirst, List.mem_map]
    constructor
    · rintro ⟨v, hv, rfl⟩
      exact ⟨v, (List.mem_filter.mp hv).1, rfl⟩
    · rintro ⟨v, hmem, rfl⟩
      refine ⟨v, ?_, rfl⟩
      rw [List.mem_filter]
      exact ⟨hmem, by simp [dimensionMask]⟩

/-- C9: gas name normalization is involutive on the static alias table:
for every pair of `GAS_MAPPING`, translating the subscript form back
through the `MAKE_ASCII` character translation recovers the ASCII name. -/
theorem gas_name_normalization_involutive :
    ∀ p ∈ GAS_MAPPING, strTranslate p.2 = p.1 := by
  decide

/-- Witness for C9 at a concrete table entry. -/
theorem gas_name_normalization_involutive_witness :
    strTranslate "CH₄" = "CH4" :=
  gas_name_normalization_involutive ("CH4", "CH₄") (by decide)

/-- C7: every year table entry is rewritten through the normalization
rule; a year label beginning with the marker `Last Inventory Year` is
replaced by the 4 code points starting 5 before the end of the original
label, so a label of the shape `Last Inventory Year (yyyy)` normalizes to
exactly the embedded 4-character year; a label not beginning with the
marker is left unchanged. -/
theorem year_label_normalization :
    (∀ (years : Dict) (i : Nat) (label : String), (i, label) ∈ years →
      (i, normalizeYearLabel label) ∈ normalizeYears years) ∧
    (∀ y1 y2 y3 y4 : Char,
      normalizeYearLabel
        (String.mk ("Last Inventory Year (".data ++ [y1, y2, y3, y4] ++ ")".data)) =
      String.mk [y1, y2, y3, y4]) ∧
    normalizeYearLabel "Last Inventory Year (2019)" = "2019" ∧
    (∀ s : String, "Last Inventory Year".data.isPrefixOf s.data = false →
      normalizeYearLabel s = s) := by
  refine ⟨fun years i label h => ?_, fun y1 y2 y3 y4 => rfl, rfl, fun s hs => ?_⟩
  · exact List.mem_map.mpr ⟨(i, label), h, rfl⟩
  · rw [normalizeYearLabel, if_neg (by simp [hs])]

/-- Witness for C7: a label without the marker is unchanged. -/
theorem year_label_normalization_witness :
    normalizeYearLabel "Base year" = "Base year" :=
  year_label_normalization.2.2.2 "Base year" (by decide)

/-- C10: when a party code is present in both the annex-one and the
non-annex-one party tables, the facade always dispatches to the annex-one
reader; dispatch is a deterministic function of the party code. -/
theorem facade_dispatch_annex_one_precedence
    (annexOneCodes nonAnnexOneCodes : List String) (partyCode : String)
    (h1 : partyCode ∈ annexOneCodes) (h2 : partyCode ∈ nonAnnexOneCodes) :
    facadeSelectReader annexOneCodes nonAnnexOneCodes partyCode =
      FacadeDispatch.annexOne := by
  rw [facadeSelectReader, if_pos]
  rw [List.contains_eq_any_beq, List.any_eq_true]
  exact ⟨partyCode, h1, by simp⟩

/-- Witness for C10 at concrete party tables. -/
theorem facade_dispatch_annex_one_precedence_witness :
    ("DEU" ∈ ["DEU", "FRA"] ∧ "DEU" ∈ ["AFG", "DEU"]) ∧
    facadeSelectReader ["DEU", "FRA"] ["AFG", "DEU"] "DEU" = FacadeDispatch.annexOne :=
  ⟨⟨by decide, by decide⟩,
    facade_dispatch_annex_one_precedence ["DEU", "FRA"] ["AFG", "DEU"] "DEU"
      (by decide) (by decide)⟩

theorem lookupGroup_addVariable (d : List (Nat × List VariableRecord))
    (v : VariableRecord) (vid : Nat) :
    lookupGroup (addVariable d v) vid =
      if v.variableId = vid then
        some ((lookupGroup d vid).getD [] ++ [v])
      else lookupGroup d vid := by
  induction d with
  | nil =>
    by_cases h : v.variableId = vid
    · simp [addVariable, lookupGroup, h]
    · simp [addVariable, lookupGroup, h]
  | cons p rest ih =>
    obtain ⟨k, g⟩ := p
    by_cases hk : k = v.variableId
    · subst hk
      by_cases hv : v.variableId = vid
      · simp [addVariable, lookupGroup, hv]
      · simp [addVariable, lookupGroup, hv]
    · by_cases hv : k = vid
      · have hvv : ¬ v.variableId = vid := fun h => hk (hv.trans h.symm)
        have hvv2 : ¬ vid = v.variableId := fun h => hvv h.symm
        simp [addVariable, hk, lookupGroup, hv, hvv, hvv2]
      · simp [addVariable, hk, lookupGroup, hv, ih]

theorem lookupGroup_foldl (vid : Nat) :
    ∀ (vars : List VariableRecord) (d : List (Nat × List VariableRecord)),
    lookupGroup (vars.foldl addVariable d) vid =
      if vars.any (fun v => v.variableId == vid) then
        some ((lookupGroup d vid).getD [] ++
          vars.filter (fun v => v.variableId == vid))
      else lookupGroup d vid := by
  intro vars
  induction vars with
  | nil => intro d; simp
  | cons v rest ih =>
    intro d
    rw [List.foldl_cons, ih, lookupGroup_addVariable]
    by_cases hv : v.variableId = vid
    · have hb : (v.variableId == vid) = true := beq_iff_eq.mpr hv
      rw [if_pos hv]
      by_cases hr : rest.any (fun v => v.variableId == vid) = true
      · simp only [hr, if_true, List.any_cons, hb, Bool.true_or, if_true,
          List.filter_cons, Option.getD_some]
        simp
      · have hr' : rest.any (fun v => v.variableId == vid) = false :=
          Bool.eq_false_iff.mpr hr
        have hfil : rest.filter (fun v => v.variableId == vid) = [] := by
          rw [List.filter_eq_nil_iff]
          intro a ha hpa
          exact hr (List.any_eq_true.mpr ⟨a, ha, hpa⟩)
        simp only [hr', if_false, List.any_cons, hb, Bool.true_or, if_true,
          List.filter_cons, hfil, Option.getD_some]
        simp
    · have hb : (v.variableId == vid) = false := beq_eq_false_iff_ne.mpr hv
      rw [if_neg hv]
      simp only [List.any_cons, hb, Bool.false_or, List.filter_cons, if_neg hv]
      rfl

/-- The grouped dict looks up to exactly the table records sharing the
variableId (in table order) when any exist, and misses otherwise. -/
theorem lookupGroup_buildVariablesDict (vars : List VariableRecord) (vid : Nat) :
    lookupGroup (buildVariablesDict vars) vid =
      if vars.any (fun v => v.variableId == vid) then
        some (vars.filter (fun v => v.variableId == vid))
      else none := by
  rw [buildVariablesDict, lookupGroup_foldl]
  simp [lookupGroup]

theorem optionMapM_append {α β : Type} (f : α → Option β) :
    ∀ (l1 l2 : List α) (b1 b2 : List β),
    optionMapM f l1 = some b1 → optionMapM f l2 = some b2 →
    optionMapM f (l1 ++ l2) = some (b1 ++ b2) := by
  intro l1
  induction l1 with
  | nil =>
    intro l2 b1 b2 h1 h2
    rw [optionMapM] at h1
    injection h1 with h1
    subst h1
    simpa using h2
  | cons a t ih =>
    intro l2 b1 b2 h1 h2
    rw [optionMapM] at h1
    cases ha : f a with
    | none => rw [ha] at h1; exact absurd h1 (by simp)
    | some b =>
      rw [ha] at h1
      cases ht : optionMapM f t with
      | none => rw [ht] at h1; exact absurd h1 (by simp)
      | some bs =>
        rw [ht] at h1
        injection h1 with h1
        subst h1
        rw [List.cons_append, optionMapM, ha, ih l2 bs b2 ht h2]
        rfl

theorem optionMapM_map {α β γ : Type} (f : β → Option γ) (g : α → β) :
    ∀ l : List α, optionMapM f (l.map g) = optionMapM (fun a => f (g a)) l := by
  intro l
  induction l with
  | nil => rfl
  | cons a t ih => rw [List.map_cons, optionMapM, optionMapM, ih]

/-- C3: whenever row emission succeeds, the emitted rows (before
deduplication) are exactly one row per (raw point, variable record) pair
in which the record shares the raw point variableId and passes all four
re-applied dimension filters, in order; records failing a filter
contribute no row. -/
theorem parse_raw_answer_row_emission (r : Reader)
    (classificationIds categoryIds measureIds gasIds : Option (List Nat)) :
    ∀ (raw : List RawPoint) (rows : List Row),
    emitRows r classificationIds categoryIds measureIds gasIds raw = some rows →
    optionMapM (fun p => assembleRow r p.1 p.2)
      (passingPairs r classificationIds categoryIds measureIds gasIds raw) =
      some rows := by
  intro raw
  induction raw with
  | nil =>
    intro rows h
    rw [emitRows] at h
    injection h with h
    subst h
    rfl
  | cons dp rest ih =>
    intro rows h
    rw [emitRows] at h
    cases hp : emitRowsPoint r classificationIds categoryIds measureIds gasIds dp with
    | none => rw [hp] at h; exact absurd h (by simp)
    | some l =>
      rw [hp] at h
      cases hr : emitRows r classificationIds categoryIds measureIds gasIds rest with
      | none => rw [hr] at h; exact absurd h (by simp)
      | some ls =>
        rw [hr] at h
        injection h with h
        subst h
        rw [emitRowsPoint] at hp
        cases hg : lookupGroup (buildVariablesDict r.variablesTable) dp.variableId with
        | none => rw [hg] at hp; exact absurd hp (by simp)
        | some group =>
          rw [hg] at hp
          rw [lookupGroup_buildVariablesDict] at hg
          by_cases hany : r.variablesTable.any (fun v => v.variableId == dp.variableId) = true
          · rw [if_pos hany] at hg
            injection hg with hg
            subst hg
            rw [passingPairs, List.flatMap_cons]
            refine optionMapM_append _ _ _ _ _ ?_ (ih ls hr)
            rw [optionMapM_map]
            exact hp
          · rw [if_neg hany] at hg
            exact absurd hg (by simp)

/-- Witness for C3: with a classification filter, the raw point with
variableId 1 yields exactly the row of the passing record and none for
the failing record. -/
theorem parse_raw_answer_row_emission_witness :
    optionMapM (fun p => assembleRow sampleReader p.1 p.2)
      (passingPairs sampleReader (some [20]) none none none
        [⟨1, 7, 100, some 5, none⟩]) =
    some [⟨"DEU", "1.A", "Total for category", "Net emissions", "N₂O", "kt",
      "1990", some 5, none⟩] :=
  parse_raw_answer_row_emission sampleReader (some [20]) none none none
    [⟨1, 7, 100, some 5, none⟩] _ (by decide)

/-- C8: taxonomy misses never abort assembly: whether a row is produced
for a (raw point, passing record) pair depends only on the five label
dictionaries, not on the category or measure tree; and when the category
(or measure) id is absent from its tree, the produced row carries the
placeholder label instead. -/
theorem assemble_taxonomy_miss_placeholder (r : Reader) (dp : RawPoint)
    (v : VariableRecord) :
    ((assembleRow r dp v).isSome = true ↔
      ((dictGet r.partiesDict dp.partyId).isSome = true ∧
       (dictGet r.classificationsDict v.classificationId).isSome = true ∧
       (dictGet r.gasesDict v.gasId).isSome = true ∧
       (dictGet r.unitsDict v.unitId).isSome = true ∧
       (dictGet r.yearsDict dp.yearId).isSome = true)) ∧
    ∀ row : Row, assembleRow r dp v = some row →
      (dictGet r.categoryTree v.categoryId = none →
        row.category = "unknown category nr. " ++ toString v.categoryId) ∧
      (dictGet r.measureTree v.measureId = none →
        row.measure = "unknown measure nr. " ++ toString v.measureId) := by
  cases hp : dictGet r.partiesDict dp.partyId <;>
    cases hc : dictGet r.classificationsDict v.classificationId <;>
    cases hg : dictGet r.gasesDict v.gasId <;>
    cases hu : dictGet r.unitsDict v.unitId <;>
    cases hy : dictGet r.yearsDict dp.yearId <;>
    cases ht1 : dictGet r.categoryTree v.categoryId <;>
    cases ht2 : dictGet r.measureTree v.measureId <;>
    simp [assembleRow, hp, hc, hg, hu, hy, ht1, ht2]

/-- Witness for C8: categoryId 11 is absent from the sample category
tree, yet a row is produced and carries the placeholder label. -/
theorem assemble_taxonomy_miss_placeholder_witness :
    (⟨"DEU", "unknown category nr. 11", "Other", "Net emissions", "N₂O",
      "kt", "1990", none, none⟩ : Row).category = "unknown category nr. 11" :=
  ((assemble_taxonomy_miss_placeholder sampleReader ⟨1, 7, 100, none, none⟩
      ⟨1, 11, 21, 30, 40, 50⟩).2
    ⟨"DEU", "unknown category nr. 11", "Other", "Net emissions", "N₂O",
      "kt", "1990", none, none⟩ (by decide)).1 (by decide)

/-- C5 (amended): an assembled table is sorted ascending by the
seven-column key and contains no two exactly identical rows; two distinct
rows may still agree on the seven-column key when they differ in
`numberValue` or `stringValue`. -/
theorem assemble_sorted_and_no_exact_duplicates (r : Reader)
    (classificationIds categoryIds measureIds gasIds : Option (List Nat))
    (raw : List RawPoint) (rows : List Row)
    (h : parseRawAnswer r classificationIds categoryIds measureIds gasIds raw =
      some rows) :
    List.Sorted rowLe rows ∧ rows.Nodup := by
  cases he : emitRows r classificationIds categoryIds measureIds gasIds raw with
  | none => simp only [parseRawAnswer, he] at h; exact absurd h (by simp)
  | some rows0 =>
    simp only [parseRawAnswer, he] at h
    by_cases h0 : rows0 = []
    · rw [if_pos h0] at h; exact absurd h (by simp)
    · rw [if_neg h0] at h
      injection h with h
      subst h
      constructor
      · exact List.Pairwise.sublist (sublist_dedupKeepFirst _)
          (List.sorted_insertionSort rowLe rows0)
      · exact nodup_dedupKeepFirst _

/-- Witness for C5 (amended) on a one-point raw answer. -/
theorem assemble_sorted_and_no_exact_duplicates_witness :
    List.Sorted rowLe [⟨"DEU", "1.A", "Total for category", "Net emissions",
      "N₂O", "kt", "1990", some 5, none⟩] ∧
    List.Nodup [(⟨"DEU", "1.A", "Total for category", "Net emissions",
      "N₂O", "kt", "1990", some 5, none⟩ : Row)] :=
  assemble_sorted_and_no_exact_duplicates sampleReader (some [20]) none none none
    [⟨1, 7, 100, some 5, none⟩]
    [⟨"DEU", "1.A", "Total for category", "Net emissions", "N₂O", "kt", "1990",
      some 5, none⟩]
    (by decide)

/-- Counterexample to C5 as stated: two raw points differing only in
`numberValue` assemble to two output rows that agree on the whole
seven-column sort key, so the output is not duplicate-free under the sort
key (only exact duplicates are dropped). -/
theorem assemble_duplicate_sort_key_counterexample :
    parseRawAnswer sampleReader (some [20]) none none none
      [⟨1, 7, 100, some 1, none⟩, ⟨1, 7, 100, some 2, none⟩] =
      some [⟨"DEU", "1.A", "Total for category", "Net emissions", "N₂O", "kt",
          "1990", some 1, none⟩,
        ⟨"DEU", "1.A", "Total for category", "Net emissions", "N₂O", "kt",
          "1990", some 2, none⟩] ∧
    rowKey ⟨"DEU", "1.A", "Total for category", "Net emissions", "N₂O", "kt",
        "1990", some 1, none⟩ =
      rowKey ⟨"DEU", "1.A", "Total for category", "Net emissions", "N₂O", "kt",
        "1990", some 2, none⟩ ∧
    (⟨"DEU", "1.A", "Total for category", "Net emissions", "N₂O", "kt",
        "1990", some 1, none⟩ : Row) ≠
      ⟨"DEU", "1.A", "Total for category", "Net emissions", "N₂O", "kt",
        "1990", some 2, none⟩ := by
  refine ⟨?_, by decide, by decide⟩
  have he : emitRows sampleReader (some [20]) none none none
      [⟨1, 7, 100, some 1, none⟩, ⟨1, 7, 100, some 2, none⟩] =
      some [⟨"DEU", "1.A", "Total for category", "Net emissions", "N₂O", "kt",
          "1990", some 1, none⟩,
        ⟨"DEU", "1.A", "Total for category", "Net emissions", "N₂O", "kt",
          "1990", some 2, none⟩] := by decide
  simp only [parseRawAnswer, he]
  rw [if_neg (by decide)]
  have hle : rowLe
      ⟨"DEU", "1.A", "Total for category", "Net emissions", "N₂O", "kt",
        "1990", some 1, none⟩
      ⟨"DEU", "1.A", "Total for category", "Net emissions", "N₂O", "kt",
        "1990", some 2, none⟩ := le_of_eq rfl
  have hsort : sortRows
      [⟨"DEU", "1.A", "Total for category", "Net emissions", "N₂O", "kt",
          "1990", some 1, none⟩,
        ⟨"DEU", "1.A", "Total for category", "Net emissions", "N₂O", "kt",
          "1990", some 2, none⟩] =
      [⟨"DEU", "1.A", "Total for category", "Net emissions", "N₂O", "kt",
          "1990", some 1, none⟩,
        ⟨"DEU", "1.A", "Total for category", "Net emissions", "N₂O", "kt",
          "1990", some 2, none⟩] := by
    rw [sortRows]
    simp only [List.insertionSort, List.orderedInsert]
    rw [if_pos hle]
  rw [hsort]
  have hd : dedupKeepFirst
      [(⟨"DEU", "1.A", "Total for category", "Net emissions", "N₂O", "kt",
          "1990", some 1, none⟩ : Row),
        ⟨"DEU", "1.A", "Total for category", "Net emissions", "N₂O", "kt",
          "1990", some 2, none⟩] =
      [⟨"DEU", "1.A", "Total for category", "Net emissions", "N₂O", "kt",
          "1990", some 1, none⟩,
        ⟨"DEU", "1.A", "Total for category", "Net emissions", "N₂O", "kt",
          "1990", some 2, none⟩] := by decide
  rw [hd]

theorem chunkListAux_flatten {α : Type} {bs : Nat} (hbs : 0 < bs) :
    ∀ (fuel : Nat) (l : List α), l.length ≤ fuel →
    (chunkListAux bs fuel l).flatten = l := by
  intro fuel
  induction fuel with
  | zero =>
    intro l hl
    cases l with
    | nil => rfl
    | cons a t => simp at hl
  | succ n ih =>
    intro l hl
    cases l with
    | nil => rfl
    | cons a t =>
      rw [chunkListAux, List.flatten_cons, ih ((a :: t).drop bs) ?_,
        List.take_append_drop]
      rw [List.length_drop]
      simp only [List.length_cons] at hl ⊢
      omega

/-- For a positive batch size, the chunks concatenate back to the
original id list. -/
theorem chunkList_flatten {α : Type} (bs : Nat) (hbs : 0 < bs) (l : List α) :
    (chunkList bs l).flatten = l :=
  chunkListAux_flatten hbs l.length l (le_refl _)

theorem flatMap_flatten {α β : Type} (f : α → List β) :
    ∀ L : List (List α), L.flatten.flatMap f = L.flatMap (fun l => l.flatMap f) := by
  intro L
  induction L with
  | nil => rfl
  | cons x xs ih => rw [List.flatten_cons, List.flatMap_cons, List.flatMap_append, ih]

/-- Counterexample to C2 as stated: a query whose raw remote response is
non-empty but whose rows are all eliminated by the assembly-time
re-filtering does not fail with `NoDataError`; the row emission yields
zero rows, and the query fails with the plain `KeyError` raised by
sorting the empty DataFrame instead (the `NoDataError` check looks only
at the raw response, before re-filtering). -/
theorem noDataError_raw_check_counterexample :
    emitRows sampleReader (some [21]) none none none
      [⟨2, 7, 100, some 3, none⟩] = some [] ∧
    rawResponse sampleRemoteExtra 1000 [1] [7] [100] =
      [⟨2, 7, 100, some 3, none⟩] ∧
    query sampleReader sampleRemoteExtra ["DEU"] none (some ["Other"]) none none
      1000 true = Except.error QueryError.keyError := by
  refine ⟨by decide, by decide, by decide⟩

/-- C2 (amended): whenever party, classification and gas resolution
succeed, the query fails with `NoDataError` (carrying the filter
parameters, gases in mapped subscript form) if and only if the
concatenated raw remote response is empty; in particular a query whose
raw responses are non-empty but whose rows are all eliminated by
assembly-time re-filtering does not raise `NoDataError`. -/
theorem noDataError_iff_raw_response_empty (r : Reader)
    (remote : List Nat → List Nat → List Nat → List RawPoint)
    (partyCodes : List String) (categoryIds : Option (List Nat))
    (classifications : Option (List String)) (measureIds : Option (List Nat))
    (gases : Option (List String)) (batchSize : Nat) (normalizeGasNames : Bool)
    (partyIds : List Nat) (classificationIds gasIds : Option (List Nat))
    (hp : optionMapM (nameId r.partiesDict) partyCodes = some partyIds)
    (hc : resolveNames r.classificationsDict classifications = some classificationIds)
    (hg : resolveNames r.gasesDict (gases.map (fun gs => gs.map gasMapGet)) =
      some gasIds) :
    (query r remote partyCodes categoryIds classifications measureIds gases
        batchSize normalizeGasNames =
      Except.error (QueryError.noData partyCodes categoryIds classifications
        measureIds (gases.map (fun gs => gs.map gasMapGet)))) ↔
    rawResponse remote batchSize
      (selectVariableIds r.variablesTable classificationIds categoryIds
        measureIds gasIds)
      partyIds (r.yearsDict.map (fun p => p.1)) = [] := by
  by_cases hraw : rawResponse remote batchSize
      (selectVariableIds r.variablesTable classificationIds categoryIds
        measureIds gasIds)
      partyIds (r.yearsDict.map (fun p => p.1)) = []
  · simp only [query, hp, hc, hg, hraw, if_pos]
  · simp only [query, hp, hc, hg, if_neg hraw]
    cases hpar : parseRawAnswer r classificationIds categoryIds measureIds gasIds
        (rawResponse remote batchSize
          (selectVariableIds r.variablesTable classificationIds categoryIds
            measureIds gasIds)
          partyIds (r.yearsDict.map (fun p => p.1))) with
    | none => simp [hpar, hraw]
    | some rows => simp [hpar, hraw]

/-- Witness for C2 (amended): an empty raw response raises `NoDataError`
with the filter parameters. -/
theorem noDataError_iff_raw_response_empty_witness :
    query sampleReader sampleRemoteEmpty ["DEU"] none none none none 1000 true =
      Except.error (QueryError.noData ["DEU"] none none none none) :=
  (noDataError_iff_raw_response_empty sampleReader sampleRemoteEmpty ["DEU"] none
    none none none 1000 true [7] none none (by decide) (by decide)
    (by decide)).mpr (by decide)

/-- Counterexample to C6 as stated: a deterministic pure submit function
alone does not make batching observationally transparent; with two
positive batch sizes the concatenated responses differ. -/
theorem batching_arbitrary_submit_counterexample :
    rawResponse sampleRemoteLengthTwo 1 [1, 2] [7] [100] ≠
      rawResponse sampleRemoteLengthTwo 2 [1, 2] [7] [100] := by
  decide

/-- C6 (amended): batching is observationally transparent when the
deterministic remote fixture responds pointwise in the variable ids, i.e.
its response to a chunk is the concatenation of a fixed per-variable-id
response (party and year ids held fixed): any two positive batch sizes
produce the same concatenated raw point sequence. -/
theorem batching_transparent_for_pointwise_submit
    (pointResponse : Nat → List RawPoint)
    (variableIds partyIds yearIds : List Nat) (bs1 bs2 : Nat)
    (h1 : 0 < bs1) (h2 : 0 < bs2) :
    rawResponse (fun chunk _ _ => chunk.flatMap pointResponse) bs1 variableIds
        partyIds yearIds =
      rawResponse (fun chunk _ _ => chunk.flatMap pointResponse) bs2 variableIds
        partyIds yearIds := by
  have key : ∀ bs, 0 < bs →
      rawResponse (fun chunk _ _ => chunk.flatMap pointResponse) bs variableIds
        partyIds yearIds = variableIds.flatMap pointResponse := by
    intro bs hbs
    rw [rawResponse, ← flatMap_flatten, chunkList_flatten bs hbs]
  rw [key bs1 h1, key bs2 h2]

/-- Witness for C6 (amended) at batch sizes 1 and 3. -/
theorem batching_transparent_for_pointwise_submit_witness :
    rawResponse (fun chunk _ _ => chunk.flatMap samplePointResponse) 1 [1, 2, 3]
        [7] [100] =
      rawResponse (fun chunk _ _ => chunk.flatMap samplePointResponse) 3 [1, 2, 3]
        [7] [100] :=
  batching_transparent_for_pointwise_submit samplePointResponse [1, 2, 3] [7]
    [100] 1 3 (by decide) (by decide)
